import Mathlib

/-!
# WALLY-S navigation & motion control: a shallow embedding

Lean embedding of the navigation core of the WALLY-S ground robot:
the PID controller (`pid.c`), the heading wrap helpers, the GPS geodesy
(`gps.c`), the magnetometer low-pass heading filter (`magnetometer.c`),
the Bluetooth coordinate parser (`bluetooth.c`) and the integration loop
tick of `WALLY_S.c`.

Real-number (`double`) arithmetic is modelled over `ℚ` where the code
uses only field operations (so statements stay decidable) and over `ℝ`
where trigonometry enters; `uint32_t` timestamps are naturals reduced
mod `2 ^ 32`.
-/

namespace WallyS

/-! ## uint32 time arithmetic (`time_us_32`, pid.c line 42) -/

/-- The modulus of `uint32_t` values. -/
def U32_MOD : ℕ := 2 ^ 32

/-- C unsigned 32-bit subtraction `now - last`: the difference mod `2 ^ 32`. -/
def u32_sub (now last : ℕ) : ℕ :=
  (now % U32_MOD + U32_MOD - last % U32_MOD) % U32_MOD

variable {α : Type} [LinearOrderedField α]

/-- `dt` as pid.c line 42 computes it:
`(current_time - pid->last_time) / 1000000.0`, the uint32 difference
converted to seconds. -/
def pid_dt (α : Type) [LinearOrderedField α] (now last : ℕ) : α :=
  (u32_sub now last : α) / 1000000

/-! ## PID controller (pid.c / pid.h) -/

/-- The `pid_controller_t` struct of pid.h. -/
structure pid_controller_t (α : Type) where
  kp : α
  ki : α
  kd : α
  setpoint : α
  last_input : α
  integral_sum : α
  output_min : α
  output_max : α
  last_time : ℕ
  initialized : Bool

/-- `pid_init` (pid.c): gains and bounds set, memory zeroed, timestamp
baselined to `now`, controller marked initialized. -/
def pid_init (kp ki kd output_min output_max : α) (now : ℕ) :
    pid_controller_t α :=
  { kp := kp, ki := ki, kd := kd, setpoint := 0, last_input := 0,
    integral_sum := 0, output_min := output_min, output_max := output_max,
    last_time := now % U32_MOD, initialized := true }

/-- `pid_set_setpoint` (pid.c): no-op while uninitialized. -/
def pid_set_setpoint (pid : pid_controller_t α) (sp : α) :
    pid_controller_t α :=
  if pid.initialized = false then pid else { pid with setpoint := sp }

/-- `pid_reset` (pid.c): zero the integral and last-input memory and rebase
the timestamp; no-op while uninitialized. -/
def pid_reset (pid : pid_controller_t α) (now : ℕ) : pid_controller_t α :=
  if pid.initialized = false then pid
  else { pid with integral_sum := 0, last_input := 0,
                  last_time := now % U32_MOD }

/-- `pid_compute` (pid.c lines 38-88), returning the output together with
the mutated controller.  Mirrors the C line by line: the uninitialized and
`dt <= 0` guards return `0.0` untouched; then proportional, integral
(accumulated first), derivative on the input, saturation with the
anti-windup back-solve of the integral bound, and the `last_input` /
`last_time` update. -/
def pid_compute (pid : pid_controller_t α) (input : α) (current_time : ℕ) :
    α × pid_controller_t α :=
  if pid.initialized = false then (0, pid) else
  let dt : α := pid_dt α current_time pid.last_time
  if dt ≤ 0 then (0, pid) else
  let error := pid.setpoint - input
  let proportional := pid.kp * error
  let integral_sum1 := pid.integral_sum + error * dt
  let derivative := pid.kd * (input - pid.last_input) / dt
  let output := proportional + pid.ki * integral_sum1 - derivative
  if pid.output_max < output then
    let integral_max := (pid.output_max - proportional + derivative) / pid.ki
    let integral_sum2 :=
      if pid.ki ≠ 0 ∧ integral_max < integral_sum1 then integral_max
      else integral_sum1
    (pid.output_max,
      { pid with integral_sum := integral_sum2, last_input := input,
                 last_time := current_time % U32_MOD })
  else if output < pid.output_min then
    let integral_min := (pid.output_min - proportional + derivative) / pid.ki
    let integral_sum2 :=
      if pid.ki ≠ 0 ∧ integral_sum1 < integral_min then integral_min
      else integral_sum1
    (pid.output_min,
      { pid with integral_sum := integral_sum2, last_input := input,
                 last_time := current_time % U32_MOD })
  else
    (output,
      { pid with integral_sum := integral_sum1, last_input := input,
                 last_time := current_time % U32_MOD })

/-- The clamp the spec's words use for the `ki = 0` contract:
`clamp(x, min, max) = max(min, min(x, max))`. -/
def spec_clamp (x lo hi : α) : α := max lo (min x hi)

/-! ## Heading error (pid.c `pid_heading_error`, lines 128-140)

The two C `while` loops fold the raw error into `[-180, 180]`:
first `while (error > 180) error -= 360`, then
`while (error < -180) error += 360`. -/

/-- The first loop of `pid_heading_error`: subtract 360 while above 180. -/
def wrap_down (e : ℚ) : ℚ :=
  if 180 < e then wrap_down (e - 360) else e
termination_by (⌈e - 180⌉).toNat
decreasing_by
  have h1 : (0 : ℤ) < ⌈e - 180⌉ := Int.ceil_pos.mpr (by linarith)
  have h2 : ⌈e - 360 - 180⌉ = ⌈e - 180⌉ - 360 := by
    have h3 := Int.ceil_sub_int (e - 180) (360 : ℤ)
    have h4 : e - 360 - 180 = e - 180 - ((360 : ℤ) : ℚ) := by push_cast; ring
    rw [h4, h3]
  simp only [h2]
  omega

/-- The second loop of `pid_heading_error`: add 360 while below -180. -/
def wrap_up (e : ℚ) : ℚ :=
  if e < -180 then wrap_up (e + 360) else e
termination_by (⌈-180 - e⌉).toNat
decreasing_by
  have h1 : (0 : ℤ) < ⌈-180 - e⌉ := Int.ceil_pos.mpr (by linarith)
  have h2 : ⌈-180 - (e + 360)⌉ = ⌈-180 - e⌉ - 360 := by
    have h3 := Int.ceil_sub_int (-180 - e) (360 : ℤ)
    have h4 : -180 - (e + 360) = -180 - e - ((360 : ℤ) : ℚ) := by
      push_cast; ring
    rw [h4, h3]
  simp only [h2]
  omega

/-- `pid_heading_error` (pid.c): the raw error `setpoint - input` folded
into `[-180, 180]` by the two wrap loops. -/
def pid_heading_error (setpoint input : ℚ) : ℚ :=
  wrap_up (wrap_down (setpoint - input))

/-! ## atan2 and the GPS geodesy (gps.c)

`atan2` models the C library function over the reals, branch for branch:
`arctan(y/x)` shifted by `±π` in the left half plane, the axis values on
`x = 0`. -/

/-- C `atan2(y, x)` over the reals (the libm function used by gps.c and
magnetometer.c; value in `(-π, π]`). -/
noncomputable def atan2 (y x : ℝ) : ℝ :=
  if 0 < x then Real.arctan (y / x)
  else if x < 0 then
    (if 0 ≤ y then Real.arctan (y / x) + Real.pi
     else Real.arctan (y / x) - Real.pi)
  else if 0 < y then Real.pi / 2
  else if y < 0 then -(Real.pi / 2)
  else 0

/-- The `gps_data_t` struct of gps.h (the fields the navigation core
reads). -/
structure gps_data_t where
  latitude : ℝ
  longitude : ℝ
  satellites : ℤ
  fix_quality : ℤ
  fix_valid : Bool

/-- The `target_data_t` struct of gps.h. -/
structure target_data_t where
  latitude : ℝ
  longitude : ℝ
  target_set : Bool

/-- `gps_set_target` (gps.c lines 149-153): store the coordinates and set
the flag. -/
def gps_set_target (lat lng : ℝ) : target_data_t :=
  { latitude := lat, longitude := lng, target_set := true }

/-- `gps_has_target` (gps.c lines 155-157). -/
def gps_has_target (target : target_data_t) : Bool :=
  target.target_set

/-- The haversine `a` term of gps.c lines 165-171. -/
noncomputable def haversine_a (lat1 lng1 lat2 lng2 : ℝ) : ℝ :=
  let lat1_rad := lat1 * Real.pi / 180
  let lat2_rad := lat2 * Real.pi / 180
  let delta_lat := (lat2 - lat1) * Real.pi / 180
  let delta_lng := (lng2 - lng1) * Real.pi / 180
  Real.sin (delta_lat / 2) * Real.sin (delta_lat / 2) +
    Real.cos lat1_rad * Real.cos lat2_rad *
      Real.sin (delta_lng / 2) * Real.sin (delta_lng / 2)

/-- The haversine distance of gps.c lines 164-174: Earth radius
6,371,000 m, `c = 2 * atan2(sqrt a, sqrt (1 - a))`. -/
noncomputable def haversine_distance (lat1 lng1 lat2 lng2 : ℝ) : ℝ :=
  let a := haversine_a lat1 lng1 lat2 lng2
  let c := 2 * atan2 (Real.sqrt a) (Real.sqrt (1 - a))
  6371000 * c

/-- `gps_distance_to_target` (gps.c lines 159-175): `0.0` without a valid
fix or without a target, else the haversine distance from the current
position to the target. -/
noncomputable def gps_distance_to_target (gps : gps_data_t)
    (target : target_data_t) : ℝ :=
  if gps.fix_valid = false ∨ target.target_set = false then 0
  else
    haversine_distance gps.latitude gps.longitude
      target.latitude target.longitude

/-- `gps_bearing_to_target` (gps.c lines 177-197): `0.0` without fix or
target, else the two-argument-arctangent initial bearing normalized by a
single `+360` fold. -/
noncomputable def gps_bearing_to_target (gps : gps_data_t)
    (target : target_data_t) : ℝ :=
  if gps.fix_valid = false ∨ target.target_set = false then 0
  else
    let lat1_rad := gps.latitude * Real.pi / 180
    let lat2_rad := target.latitude * Real.pi / 180
    let delta_lng := (target.longitude - gps.longitude) * Real.pi / 180
    let y := Real.sin delta_lng * Real.cos lat2_rad
    let x := Real.cos lat1_rad * Real.sin lat2_rad -
      Real.sin lat1_rad * Real.cos lat2_rad * Real.cos delta_lng
    let bearing := atan2 y x * 180 / Real.pi
    if bearing < 0 then bearing + 360 else bearing

/-- `gps_target_reached` (gps.c lines 199-201): distance strictly below
two meters. -/
noncomputable def gps_target_reached (gps : gps_data_t)
    (target : target_data_t) : Prop :=
  gps_distance_to_target gps target < 2

/-! ## Magnetometer heading filter (magnetometer.c) -/

/-- The low-pass filter constant `ALPHA` of magnetometer.c line 25. -/
def ALPHA : ℝ := 0.6

/-- The default local magnetic declination (radians), magnetometer.c
line 28. -/
def declination_angle : ℝ := 0.0404

/-- `magnetometer_calculate_heading` (magnetometer.c lines 76-91) on one
raw `(x, y)` sample: `atan2(y, x) * 180.0` (the source multiplies by 180
with no division by π), plus the declination times 180, then one
`±360` normalization fold. -/
noncomputable def magnetometer_calculate_heading (x y : ℤ) : ℝ :=
  let heading0 := atan2 (y : ℝ) (x : ℝ) * 180
  let heading1 := heading0 + declination_angle * 180
  if heading1 < 0 then heading1 + 360
  else if 360 ≤ heading1 then heading1 - 360
  else heading1

/-- The filter update of `magnetometer_get_filtered_heading`
(magnetometer.c lines 99-120): fold the difference once into
`[-180, 180]`, move by `ALPHA` times the folded difference, then one
`±360` normalization fold. -/
noncomputable def low_pass_step (filtered new_heading : ℝ) : ℝ :=
  let difference0 := new_heading - filtered
  let difference :=
    if 180 < difference0 then difference0 - 360
    else if difference0 < -180 then difference0 + 360
    else difference0
  let f1 := filtered + ALPHA * difference
  if f1 < 0 then f1 + 360
  else if 360 ≤ f1 then f1 - 360
  else f1

/-- `magnetometer_get_filtered_heading` (magnetometer.c lines 93-121) on
a successfully read raw sample: the filter update applied to the heading
computed from `(x, y)`. -/
noncomputable def magnetometer_get_filtered_heading (filtered : ℝ)
    (x y : ℤ) : ℝ :=
  low_pass_step filtered (magnetometer_calculate_heading x y)

/-- The filtered heading after a sequence of raw `(x, y)` samples. -/
noncomputable def run_filter (filtered : ℝ) : List (ℤ × ℤ) → ℝ
  | [] => filtered
  | (x, y) :: rest =>
    run_filter (magnetometer_get_filtered_heading filtered x y) rest

/-- The shorter-arc distance between two headings of `[0, 360)`, the
metric of the spec's jump constraint. -/
noncomputable def heading_arc_dist (a b : ℝ) : ℝ :=
  min |a - b| (360 - |a - b|)

/-! ## Bluetooth coordinate parsing (bluetooth.c) -/

/-- The numeric value of a digit character. -/
def digit_val (c : Char) : ℕ := c.toNat - '0'.toNat

/-- The natural number denoted by a digit string (most significant
first). -/
def digits_to_nat (ds : List Char) : ℕ :=
  ds.foldl (fun n c => 10 * n + digit_val c) 0

/-- C `isspace` characters skipped by `atof`. -/
def is_space (c : Char) : Bool :=
  c = ' ' ∨ c = '\t' ∨ c = '\n' ∨ c = '\x0b' ∨ c = '\x0c' ∨ c = '\r'

/-- C `atof` (the libc function bluetooth.c calls) on the decimal
grammar: skip whitespace, optional sign, digits, optional fraction,
optional exponent; `0.0` when no digit is consumed. -/
def atof (s : List Char) : ℚ :=
  let s1 := s.dropWhile is_space
  let sign : ℚ := if s1.head? = some '-' then -1 else 1
  let s2 := if s1.head? = some '-' ∨ s1.head? = some '+' then s1.tail else s1
  let ip := s2.takeWhile Char.isDigit
  let s3 := s2.dropWhile Char.isDigit
  let fp := if s3.head? = some '.' then s3.tail.takeWhile Char.isDigit else []
  let s4 := if s3.head? = some '.' then s3.tail.dropWhile Char.isDigit else s3
  if ip.length = 0 ∧ fp.length = 0 then 0
  else
    let mantissa : ℚ :=
      (digits_to_nat ip : ℚ) + (digits_to_nat fp : ℚ) / 10 ^ fp.length
    let expo : ℤ :=
      if s4.head? = some 'e' ∨ s4.head? = some 'E' then
        let r1 := s4.tail
        let esign : ℤ := if r1.head? = some '-' then -1 else 1
        let r2 := if r1.head? = some '-' ∨ r1.head? = some '+' then r1.tail
          else r1
        let ed := r2.takeWhile Char.isDigit
        if ed.length = 0 then 0 else esign * (digits_to_nat ed : ℤ)
      else 0
    sign * mantissa * 10 ^ expo

/-- A field that "parses as a number" in the sense of the spec's command
grammar: after optional whitespace and sign, at least one digit appears
in the integer or fraction part. -/
def spec_numeric_field (s : List Char) : Bool :=
  let s1 := s.dropWhile is_space
  let s2 := if s1.head? = some '-' ∨ s1.head? = some '+' then s1.tail else s1
  let ip := s2.takeWhile Char.isDigit
  let s3 := s2.dropWhile Char.isDigit
  let fp := if s3.head? = some '.' then s3.tail.takeWhile Char.isDigit else []
  decide (ip.length ≠ 0 ∨ fp.length ≠ 0)

/-- `bluetooth_parse_coordinates` (bluetooth.c lines 83-106): split at the
first comma, reject an over-long latitude field, convert both sides with
`atof`, and accept exactly when both converted values are in coordinate
range.  `some (lat, lng)` models a `true` return with the stored
outputs. -/
def bluetooth_parse_coordinates (command : List Char) :
    Option (ℚ × ℚ) :=
  match command.findIdx? (fun c => c = ',') with
  | none => none
  | some i =>
    let lat_str := command.take i
    let lng_str := command.drop (i + 1)
    if 32 ≤ lat_str.length then none
    else
      let lat := atof lat_str
      let lng := atof lng_str
      if -90 ≤ lat ∧ lat ≤ 90 ∧ -180 ≤ lng ∧ lng ≤ 180 then
        some (lat, lng)
      else none

/-! ## The integration loop tick (WALLY_S.c `integration_test`)

One pass of the `while (true)` body, with the sensor snapshot, the
polled Bluetooth line and the µs clock as inputs.  The motor module
(motors.c) is not among the repository's staged sources; `motor_cmd`
is modelled from the spec's actuator interface as the last command the
loop applied (`motors_stop_all` / `motors_set_both_motors`). -/

/-- A motor direction (`MOTOR_FORWARD` is the only one the loop uses). -/
inductive motor_dir where
  | forward
  | backward
deriving DecidableEq

/-- Modelled from the spec: the motor actuator's state is the last
command applied, either `motors_stop_all()` or
`motors_set_both_motors(dir_a, speed_a, dir_b, speed_b)`. -/
inductive motor_cmd where
  | stop_all
  | set_both (dir_a : motor_dir) (speed_a : ℤ) (dir_b : motor_dir)
      (speed_b : ℤ)
deriving DecidableEq

/-- `BASE_SPEED_A` (config.h). -/
def BASE_SPEED_A : ℤ := 180
/-- `BASE_SPEED_B` (config.h). -/
def BASE_SPEED_B : ℤ := 190
/-- `MIN_SPEED` (config.h). -/
def MIN_SPEED : ℤ := 30
/-- `MAX_SPEED` (config.h). -/
def MAX_SPEED : ℤ := 255

/-- The C cast `(int)x`: truncation toward zero. -/
noncomputable def c_trunc (x : ℝ) : ℤ := if x < 0 then ⌈x⌉ else ⌊x⌋

/-- The `"STOP"` command line. -/
def stop_command : List Char := ['S', 'T', 'O', 'P']

/-- The mutable state the integration loop owns: the
`navigation_active` flag, the GPS target (gps.c's `target_data`), the
heading PID controller and the motor command in effect. -/
structure integration_state where
  navigation_active : Bool
  target : target_data_t
  heading_pid : pid_controller_t ℝ
  motor : motor_cmd

/-- One tick of `integration_test` (WALLY_S.c lines 116-203): process
the polled Bluetooth line (STOP stops the motors and clears the flag; a
parsed coordinate pair sets the target, activates navigation and resets
the heading PID), then, when navigating with a valid fix and a target,
either stop on arrival or steer by the PID heading correction applied
differentially around the base speeds, clamped to
`[MIN_SPEED, MAX_SPEED]`. -/
noncomputable def integration_tick (st : integration_state)
    (bt_line : Option (List Char)) (heading : ℝ) (gps : gps_data_t)
    (now : ℕ) : integration_state :=
  let st1 :=
    match bt_line with
    | none => st
    | some line =>
      if line = stop_command then
        { st with navigation_active := false, motor := motor_cmd.stop_all }
      else
        match bluetooth_parse_coordinates line with
        | some (lat, lng) =>
          { st with
              target := gps_set_target (lat : ℝ) (lng : ℝ),
              navigation_active := true,
              heading_pid := pid_reset st.heading_pid now }
        | none => st
  if st1.navigation_active = true ∧ gps.fix_valid = true ∧
      gps_has_target st1.target = true then
    if gps_distance_to_target gps st1.target < 2 then
      { st1 with navigation_active := false, motor := motor_cmd.stop_all }
    else
      let target_bearing := gps_bearing_to_target gps st1.target
      let pid1 := pid_set_setpoint st1.heading_pid target_bearing
      let result := pid_compute pid1 heading now
      let speed_a0 := BASE_SPEED_A - c_trunc result.1
      let speed_b0 := BASE_SPEED_B + c_trunc result.1
      let speed_a := if speed_a0 < MIN_SPEED then MIN_SPEED
        else if MAX_SPEED < speed_a0 then MAX_SPEED else speed_a0
      let speed_b := if speed_b0 < MIN_SPEED then MIN_SPEED
        else if MAX_SPEED < speed_b0 then MAX_SPEED else speed_b0
      { st1 with
          heading_pid := result.2,
          motor := motor_cmd.set_both motor_dir.forward speed_a
            motor_dir.forward speed_b }
  else st1

/-! ## Shared lemmas -/

/-- Both wrap loops only ever leave a value at or below 180. -/
theorem wrap_down_le (e : ℚ) : wrap_down e ≤ 180 := by
  induction e using wrap_down.induct with
  | case1 e h ih =>
    rw [wrap_down.eq_def]
    simp only [if_pos h]
    exact ih
  | case2 e h =>
    rw [wrap_down.eq_def]
    simp only [if_neg h]
    linarith [not_lt.mp h]

/-- The second wrap loop never returns a value below -180. -/
theorem wrap_up_ge (e : ℚ) : -180 ≤ wrap_up e := by
  induction e using wrap_up.induct with
  | case1 e h ih =>
    rw [wrap_up.eq_def]
    simp only [if_pos h]
    exact ih
  | case2 e h =>
    rw [wrap_up.eq_def]
    simp only [if_neg h]
    linarith [not_lt.mp h]

/-- Starting at or below 180, the second wrap loop stays at or below
180. -/
theorem wrap_up_le (e : ℚ) (he : e ≤ 180) : wrap_up e ≤ 180 := by
  induction e using wrap_up.induct with
  | case1 e h ih =>
    rw [wrap_up.eq_def]
    simp only [if_pos h]
    exact ih (by linarith)
  | case2 e h =>
    rw [wrap_up.eq_def]
    simp only [if_neg h]
    exact he

/-- The first wrap loop shifts its input by a whole multiple of 360. -/
theorem wrap_down_congr (e : ℚ) : ∃ k : ℤ, wrap_down e = e - 360 * k := by
  induction e using wrap_down.induct with
  | case1 e h ih =>
    obtain ⟨k, hk⟩ := ih
    refine ⟨k + 1, ?_⟩
    rw [wrap_down.eq_def, if_pos h, hk]
    push_cast
    ring
  | case2 e h =>
    exact ⟨0, by rw [wrap_down.eq_def]; simp [if_neg h]⟩

/-- The second wrap loop shifts its input by a whole multiple of 360. -/
theorem wrap_up_congr (e : ℚ) : ∃ k : ℤ, wrap_up e = e + 360 * k := by
  induction e using wrap_up.induct with
  | case1 e h ih =>
    obtain ⟨k, hk⟩ := ih
    refine ⟨k + 1, ?_⟩
    rw [wrap_up.eq_def, if_pos h, hk]
    push_cast
    ring
  | case2 e h =>
    exact ⟨0, by rw [wrap_up.eq_def]; simp [if_neg h]⟩

/-- `pid_heading_error` always lands in `[-180, 180]`. -/
theorem pid_heading_error_range (a b : ℚ) :
    -180 ≤ pid_heading_error a b ∧ pid_heading_error a b ≤ 180 :=
  ⟨wrap_up_ge _, wrap_up_le _ (wrap_down_le _)⟩

/-- `pid_heading_error a b` is congruent to `a - b` modulo 360. -/
theorem pid_heading_error_congr (a b : ℚ) :
    ∃ k : ℤ, pid_heading_error a b = (a - b) + 360 * k := by
  obtain ⟨k1, hk1⟩ := wrap_down_congr (a - b)
  obtain ⟨k2, hk2⟩ := wrap_up_congr (wrap_down (a - b))
  refine ⟨k2 - k1, ?_⟩
  rw [pid_heading_error, hk2, hk1]
  push_cast
  ring

/-- The uint32 difference of a time against its own reduced value is
zero. -/
theorem u32_sub_self_mod (t : ℕ) : u32_sub t (t % U32_MOD) = 0 := by
  have hM : U32_MOD = 4294967296 := by norm_num [U32_MOD]
  simp only [u32_sub, hM]
  omega

/-- `pid_compute` either hits a guard (uninitialized or `dt <= 0`) and
returns `(0, pid)` untouched, or takes the compute path and stamps
`last_time` with the call time. -/
theorem pid_compute_cases (p : pid_controller_t ℚ) (input : ℚ) (t : ℕ) :
    ((p.initialized = false ∨ pid_dt ℚ t p.last_time ≤ 0) ∧
      pid_compute p input t = (0, p)) ∨
    ((pid_compute p input t).2.last_time = t % U32_MOD ∧
      (pid_compute p input t).2.initialized = p.initialized) := by
  by_cases hinit : p.initialized = false
  · exact Or.inl ⟨Or.inl hinit, by simp [pid_compute, hinit]⟩
  · by_cases hdt : pid_dt ℚ t p.last_time ≤ 0
    · exact Or.inl ⟨Or.inr hdt, by simp [pid_compute, hinit, hdt]⟩
    · right
      simp only [pid_compute, if_neg hinit, if_neg hdt]
      split_ifs <;> simp

/-- The haversine `a` term is symmetric in its two coordinates. -/
theorem haversine_a_symm (lat1 lng1 lat2 lng2 : ℝ) :
    haversine_a lat1 lng1 lat2 lng2 = haversine_a lat2 lng2 lat1 lng1 := by
  unfold haversine_a
  have h1 : (lat1 - lat2) * Real.pi / 180 / 2 =
      -((lat2 - lat1) * Real.pi / 180 / 2) := by ring
  have h2 : (lng1 - lng2) * Real.pi / 180 / 2 =
      -((lng2 - lng1) * Real.pi / 180 / 2) := by ring
  simp only
  rw [h1, h2]
  simp only [Real.sin_neg]
  ring

/-- The haversine distance is symmetric. -/
theorem haversine_distance_symm (lat1 lng1 lat2 lng2 : ℝ) :
    haversine_distance lat1 lng1 lat2 lng2 =
      haversine_distance lat2 lng2 lat1 lng1 := by
  unfold haversine_distance
  rw [haversine_a_symm]

/-- The haversine distance of a point to itself is zero. -/
theorem haversine_distance_self (lat lng : ℝ) :
    haversine_distance lat lng lat lng = 0 := by
  unfold haversine_distance haversine_a
  norm_num [atan2, Real.arctan_zero]

/-- `arctan` lies strictly below the identity on positive inputs. -/
theorem arctan_lt_of_pos {t : ℝ} (h : 0 < t) : Real.arctan t < t := by
  have h1 : 0 < Real.arctan t := by
    have h2 := Real.arctan_strictMono h
    rwa [Real.arctan_zero] at h2
  calc Real.arctan t < Real.tan (Real.arctan t) :=
        Real.lt_tan h1 (Real.arctan_lt_pi_div_two t)
    _ = t := Real.tan_arctan t

/-- The modelled `atan2` stays in `(-π, π]`. -/
theorem atan2_range (y x : ℝ) :
    -Real.pi < atan2 y x ∧ atan2 y x ≤ Real.pi := by
  have hpi := Real.pi_pos
  have ha1 := Real.neg_pi_div_two_lt_arctan (y / x)
  have ha2 := Real.arctan_lt_pi_div_two (y / x)
  unfold atan2
  split_ifs with h1 h2 h3 h4 h5
  · constructor <;> linarith
  · have hdiv : y / x ≤ 0 := div_nonpos_iff.mpr (Or.inl ⟨h3, h2.le⟩)
    have hmono := Real.arctan_strictMono.monotone hdiv
    rw [Real.arctan_zero] at hmono
    constructor <;> linarith
  · push_neg at h3
    have hdiv : 0 < y / x := div_pos_of_neg_of_neg h3 h2
    have hmono := Real.arctan_strictMono hdiv
    rw [Real.arctan_zero] at hmono
    constructor <;> linarith
  · constructor <;> linarith
  · constructor <;> linarith
  · constructor <;> linarith

/-- The heading `magnetometer_calculate_heading` returns lies in
`(-199, 360)` — not in `[0, 360)`: the missing division by π lets the
single normalization fold fall short on the most negative values. -/
theorem magnetometer_calculate_heading_bounds (x y : ℤ) :
    -199 < magnetometer_calculate_heading x y ∧
    magnetometer_calculate_heading x y < 360 := by
  obtain ⟨ha1, ha2⟩ := atan2_range (y : ℝ) (x : ℝ)
  have hpi1 := Real.pi_lt_d6
  have hpi2 := Real.pi_gt_three
  unfold magnetometer_calculate_heading
  simp only [declination_angle]
  split_ifs with h1 h2 <;> constructor <;> nlinarith

/-- One filter update started inside `[0, 360)` on a sample from
`(-199, 360)` lands back inside `[0, 360)`. -/
theorem low_pass_range {filtered nh : ℝ} (hf0 : 0 ≤ filtered)
    (hf1 : filtered < 360) (hn0 : -199 < nh) (hn1 : nh < 360) :
    0 ≤ low_pass_step filtered nh ∧ low_pass_step filtered nh < 360 := by
  unfold low_pass_step
  simp only [ALPHA]
  split_ifs <;> constructor <;> linarith

/-- The `[0, 360)` invariant of the filtered heading is preserved along
any sample sequence. -/
theorem run_filter_range (samples : List (ℤ × ℤ)) :
    ∀ filtered : ℝ, 0 ≤ filtered → filtered < 360 →
      0 ≤ run_filter filtered samples ∧ run_filter filtered samples < 360 := by
  induction samples with
  | nil =>
    intro f h0 h1
    exact ⟨h0, h1⟩
  | cons hd tl ih =>
    intro f h0 h1
    obtain ⟨x, y⟩ := hd
    rw [run_filter]
    obtain ⟨hb0, hb1⟩ := magnetometer_calculate_heading_bounds x y
    obtain ⟨hs0, hs1⟩ := low_pass_range h0 h1 hb0 hb1
    exact ih _ hs0 hs1

/-- Every heading the filter emits stays in `[0, 360)`: single calls and
whole sample sequences. -/
theorem magnetometer_filtered_heading_range (filtered : ℝ)
    (h0 : 0 ≤ filtered) (h1 : filtered < 360) :
    (∀ x y : ℤ, 0 ≤ magnetometer_get_filtered_heading filtered x y ∧
      magnetometer_get_filtered_heading filtered x y < 360) ∧
    (∀ samples : List (ℤ × ℤ), 0 ≤ run_filter filtered samples ∧
      run_filter filtered samples < 360) := by
  constructor
  · intro x y
    obtain ⟨hb0, hb1⟩ := magnetometer_calculate_heading_bounds x y
    exact low_pass_range h0 h1 hb0 hb1
  · intro samples
    exact run_filter_range samples filtered h0 h1

/-! ## The claims -/

/-- C1 (counterexample): a STOP received by a navigating loop with a set
target leaves the target flag set — `gps_has_target()` still returns
`true` after the STOP is processed, against the claim that the
NavigationTarget is cleared. -/
theorem C1_stop_does_not_clear_target_cex :
    gps_has_target ((integration_tick
      { navigation_active := true,
        target := gps_set_target 6 (-75),
        heading_pid := pid_init 2 (1/10) (2/10) (-50) 50 0,
        motor := motor_cmd.stop_all }
      (some stop_command) 0
      { latitude := 0, longitude := 0, satellites := 0, fix_quality := 0,
        fix_valid := false } 0).target) = true := by
  simp [integration_tick, gps_has_target, gps_set_target]

/-- C1 (amended): on receipt of a STOP command in any state the loop
deactivates navigation and immediately emits the stop motor command, but
the NavigationTarget is left exactly as it was — nothing in the code
ever resets the target flag, so `gps_has_target()` keeps its previous
value. -/
theorem C1_stop_transition_amended (st : integration_state)
    (heading : ℝ) (gps : gps_data_t) (now : ℕ) :
    integration_tick st (some stop_command) heading gps now =
      { st with navigation_active := false,
                motor := motor_cmd.stop_all } := by
  simp [integration_tick]

/-- C2 (code evaluated at the failing input): from the in-range filtered
heading 350° one raw sample `(x, y) = (-32768, -1)` moves the filter by
a shorter-arc distance above `ALPHA * 180 = 108` degrees — the
`atan2(y,x) * 180.0` of magnetometer.c line 78 lacks the division by π,
so `magnetometer_calculate_heading` leaves `[0, 360)` and the single
difference fold of the filter cannot recover. -/
theorem C2_jump_bound_cex :
    ((0 : ℝ) ≤ 350 ∧ (350 : ℝ) < 360) ∧ ALPHA * 180 = 108 ∧
    108 < heading_arc_dist 350
      (magnetometer_get_filtered_heading 350 (-32768) (-1)) := by
  have hA0 : 0 < Real.arctan (1/32768) := by
    have h2 := Real.arctan_strictMono (show (0:ℝ) < 1/32768 by norm_num)
    rwa [Real.arctan_zero] at h2
  have hA1 : Real.arctan (1/32768) < 1/32768 := arctan_lt_of_pos (by norm_num)
  have hpi1 := Real.pi_gt_d6
  have hpi2 := Real.pi_lt_d6
  have hat : atan2 (((-1 : ℤ) : ℝ)) (((-32768 : ℤ) : ℝ)) =
      Real.arctan (1/32768) - Real.pi := by
    unfold atan2
    norm_num
  have hcalc : magnetometer_calculate_heading (-32768) (-1) =
      (Real.arctan (1/32768) - Real.pi) * 180 + 0.0404 * 180 + 360 := by
    unfold magnetometer_calculate_heading
    rw [hat]
    simp only [declination_angle]
    rw [if_pos (by linarith)]
  have hstep : low_pass_step 350
      ((Real.arctan (1/32768) - Real.pi) * 180 + 0.0404 * 180 + 360) =
      350 + 0.6 * ((((Real.arctan (1/32768) - Real.pi) * 180 +
        0.0404 * 180 + 360) - 350) + 360) := by
    unfold low_pass_step
    simp only [ALPHA]
    have hc1 : ¬(180 < ((Real.arctan (1/32768) - Real.pi) * 180 +
        0.0404 * 180 + 360) - 350) := by linarith
    have hc2 : ((Real.arctan (1/32768) - Real.pi) * 180 +
        0.0404 * 180 + 360) - 350 < -180 := by linarith
    rw [if_neg hc1, if_pos hc2]
    have hc3 : ¬(350 + 0.6 * ((((Real.arctan (1/32768) - Real.pi) * 180 +
        0.0404 * 180 + 360) - 350) + 360) < 0) := by linarith
    have hc4 : ¬(360 ≤ 350 + 0.6 * ((((Real.arctan (1/32768) -
        Real.pi) * 180 + 0.0404 * 180 + 360) - 350) + 360)) := by linarith
    rw [if_neg hc3, if_neg hc4]
  have hout : magnetometer_get_filtered_heading 350 (-32768) (-1) =
      350 + 0.6 * ((((Real.arctan (1/32768) - Real.pi) * 180 +
        0.0404 * 180 + 360) - 350) + 360) := by
    rw [magnetometer_get_filtered_heading, hcalc, hstep]
  refine ⟨⟨by norm_num, by norm_num⟩, by norm_num [ALPHA], ?_⟩
  rw [heading_arc_dist, hout]
  have h5 : (0 : ℝ) < 350 - (350 + 0.6 * ((((Real.arctan (1/32768) -
      Real.pi) * 180 + 0.0404 * 180 + 360) - 350) + 360)) := by linarith
  rw [abs_of_pos h5]
  rw [min_eq_left (by linarith)]
  linarith

/-- C3 (counterexample): two `pid_compute` calls at the identical
timestamp — the first returns the saturated output 100, the second
returns 0.0, not the first call's output, refuting the claim that the
second call repeats the first call's return value. -/
theorem C3_second_call_output_cex :
    (pid_compute (pid_set_setpoint
        (pid_init (α := ℚ) 2 (1/10) (2/10) (-100) 100 0) 90)
      0 1000000).1 = 100 ∧
    (pid_compute (pid_compute (pid_set_setpoint
        (pid_init (α := ℚ) 2 (1/10) (2/10) (-100) 100 0) 90)
      0 1000000).2 0 1000000).1 = 0 ∧
    (100 : ℚ) ≠ 0 := by
  refine ⟨?_, ?_, by norm_num⟩ <;>
    norm_num [pid_compute, pid_init, pid_set_setpoint, pid_dt, u32_sub,
      U32_MOD]

/-- C3 (amended): a second `pid_compute` call with the timestamp of the
first returns 0.0 and leaves the whole controller state — in particular
`integral_sum` and `last_input` — exactly as the first call left it
(the `dt <= 0` guard mutates nothing). -/
theorem C3_duplicate_timestamp_amended (p : pid_controller_t ℚ)
    (in1 in2 : ℚ) (t : ℕ) :
    pid_compute (pid_compute p in1 t).2 in2 t =
      (0, (pid_compute p in1 t).2) := by
  rcases pid_compute_cases p in1 t with ⟨hg, heq⟩ | ⟨hlt, _⟩
  · rw [heq]
    rcases hg with hinit | hdt
    · simp [pid_compute, hinit]
    · by_cases hinit : p.initialized = false
      · simp [pid_compute, hinit]
      · simp [pid_compute, hinit, hdt]
  · set p1 := (pid_compute p in1 t).2
    by_cases h1 : p1.initialized = false
    · simp [pid_compute, h1]
    · have hdt : pid_dt ℚ t p1.last_time ≤ 0 := by
        rw [hlt, pid_dt, u32_sub_self_mod]
        norm_num
      simp [pid_compute, h1, hdt]

/-- C4 (counterexample): the non-numeric line `"x,y"` is accepted —
`atof` turns each field into 0.0, which passes the range check, so
`bluetooth_parse_coordinates` returns `true` with `(0, 0)` although
neither field parses as a number. -/
theorem C4_nonnumeric_accepted_cex :
    bluetooth_parse_coordinates ['x', ',', 'y'] = some (0, 0) ∧
    spec_numeric_field ['x'] = false ∧
    spec_numeric_field ['y'] = false := by
  decide

/-- C4 (amended): a line is accepted as a SetTarget command iff it
contains a comma, its latitude field is under 32 characters and the two
`atof`-converted values lie in range — whenever
`bluetooth_parse_coordinates` accepts, the produced pair satisfies
latitude ∈ [-90, 90] and longitude ∈ [-180, 180], but fields need not
be numeric: a junk field converts to 0.0 and is accepted. -/
theorem C4_parse_range_amended (s : List Char) (lat lng : ℚ)
    (h : bluetooth_parse_coordinates s = some (lat, lng)) :
    -90 ≤ lat ∧ lat ≤ 90 ∧ -180 ≤ lng ∧ lng ≤ 180 := by
  unfold bluetooth_parse_coordinates at h
  rcases hidx : s.findIdx? (fun c => c = ',') with _ | i <;> rw [hidx] at h
  · simp at h
  · simp only at h
    by_cases h1 : 32 ≤ (List.take i s).length
    · rw [if_pos h1] at h
      exact absurd h (by simp)
    · rw [if_neg h1] at h
      by_cases h2 : -90 ≤ atof (List.take i s) ∧ atof (List.take i s) ≤ 90 ∧
          -180 ≤ atof (List.drop (i + 1) s) ∧ atof (List.drop (i + 1) s) ≤ 180
      · rw [if_pos h2] at h
        simp only [Option.some.injEq, Prod.mk.injEq] at h
        rcases h with ⟨hl, hr⟩
        rw [← hl, ← hr]
        exact h2
      · rw [if_neg h2] at h
        exact absurd h (by simp)

/-- C4 (witness): an accepted line instantiates the amended acceptance
theorem — here the junk line `"x,y"`, accepted as `(0, 0)`. -/
theorem C4_parse_range_witness :
    -90 ≤ (0 : ℚ) ∧ (0 : ℚ) ≤ 90 ∧ -180 ≤ (0 : ℚ) ∧ (0 : ℚ) ≤ 180 :=
  C4_parse_range_amended ['x', ',', 'y'] 0 0 (by decide)

/-- C5: a tick while navigating with `fix_valid = false` and no command
pending changes nothing at all: the motor command in effect, the target
and the heading PID state all stay exactly as on the previous tick — no
control update is derived from the stale position. -/
theorem C5_hold_on_invalid_fix (st : integration_state) (heading : ℝ)
    (gps : gps_data_t) (now : ℕ) (_hnav : st.navigation_active = true)
    (hfix : gps.fix_valid = false) :
    integration_tick st none heading gps now = st := by
  simp only [integration_tick]
  rw [hfix]
  norm_num

/-- C5 (witness): the hold theorem applied to a concrete navigating
state with an invalid fix. -/
theorem C5_hold_on_invalid_fix_witness :
    integration_tick
        { navigation_active := true,
          target := gps_set_target 6 (-75),
          heading_pid := pid_init 2 (1/10) (2/10) (-50) 50 0,
          motor := motor_cmd.set_both motor_dir.forward 100
            motor_dir.forward 110 }
        none 42
        { latitude := 1, longitude := 2, satellites := 3, fix_quality := 0,
          fix_valid := false } 7 =
      { navigation_active := true,
        target := gps_set_target 6 (-75),
        heading_pid := pid_init 2 (1/10) (2/10) (-50) 50 0,
        motor := motor_cmd.set_both motor_dir.forward 100
          motor_dir.forward 110 } :=
  C5_hold_on_invalid_fix _ 42 _ 7 rfl rfl

/-- C6: for all headings `a`, `b`, `pid_heading_error a b` lies in
`[-180, 180]` and is the negation of `pid_heading_error b a` except at
the ±180 boundary tie, where both sides sit at a boundary value; and
`pid_heading_error 10 350 = 20`, the shortest path across the 0° seam. -/
theorem C6_heading_error_range_antisym :
    (∀ a b : ℚ,
      (-180 ≤ pid_heading_error a b ∧ pid_heading_error a b ≤ 180) ∧
      (pid_heading_error a b = -pid_heading_error b a ∨
        ((pid_heading_error a b = 180 ∨ pid_heading_error a b = -180) ∧
         (pid_heading_error b a = 180 ∨ pid_heading_error b a = -180)))) ∧
    pid_heading_error 10 350 = 20 := by
  constructor
  · intro a b
    obtain ⟨h1, h2⟩ := pid_heading_error_range a b
    obtain ⟨h3, h4⟩ := pid_heading_error_range b a
    refine ⟨⟨h1, h2⟩, ?_⟩
    obtain ⟨k1, hk1⟩ := pid_heading_error_congr a b
    obtain ⟨k2, hk2⟩ := pid_heading_error_congr b a
    have hsum : pid_heading_error a b + pid_heading_error b a =
        360 * ((k1 : ℚ) + k2) := by
      rw [hk1, hk2]
      ring
    have hm1 : (-1 : ℤ) ≤ k1 + k2 := by
      by_contra hc
      push_neg at hc
      have h5 : (k1 + k2 : ℤ) ≤ -2 := by omega
      have h6 : ((k1 : ℚ) + k2) ≤ -2 := by exact_mod_cast h5
      nlinarith
    have hm2 : k1 + k2 ≤ (1 : ℤ) := by
      by_contra hc
      push_neg at hc
      have h5 : (2 : ℤ) ≤ k1 + k2 := by omega
      have h6 : (2 : ℚ) ≤ ((k1 : ℚ) + k2) := by exact_mod_cast h5
      nlinarith
    interval_cases h : (k1 + k2)
    · right
      have hs : pid_heading_error a b + pid_heading_error b a = -360 := by
        rw [hsum]
        have h7 : ((k1 : ℚ) + k2) = -1 := by exact_mod_cast h
        rw [h7]
        norm_num
      exact ⟨Or.inr (by linarith), Or.inr (by linarith)⟩
    · left
      have h7 : ((k1 : ℚ) + k2) = 0 := by exact_mod_cast h
      rw [h7] at hsum
      linarith [hsum]
    · right
      have hs : pid_heading_error a b + pid_heading_error b a = 360 := by
        rw [hsum]
        have h7 : ((k1 : ℚ) + k2) = 1 := by exact_mod_cast h
        rw [h7]
        norm_num
      exact ⟨Or.inl (by linarith), Or.inl (by linarith)⟩
  · show wrap_up (wrap_down (10 - 350 : ℚ)) = 20
    rw [show (10 - 350 : ℚ) = -340 by norm_num]
    rw [wrap_down.eq_def]
    norm_num
    rw [wrap_up.eq_def]
    norm_num
    rw [wrap_up.eq_def]
    norm_num

/-- C7: for an initialized controller with `ki = 0`, consistent output
limits and positive `dt`, the `pid_compute` output is exactly
`clamp(kp * (setpoint - input) - kd * (input - last_input) / dt,
output_min, output_max)`. -/
theorem C7_ki_zero_pd_clamp (p : pid_controller_t ℚ) (input : ℚ)
    (now : ℕ) (hinit : p.initialized = true) (hki : p.ki = 0)
    (hlim : p.output_min ≤ p.output_max)
    (hdt : 0 < pid_dt ℚ now p.last_time) :
    (pid_compute p input now).1 =
      spec_clamp (p.kp * (p.setpoint - input) -
          p.kd * (input - p.last_input) / pid_dt ℚ now p.last_time)
        p.output_min p.output_max := by
  have hinit2 : ¬ p.initialized = false := by
    rw [hinit]
    norm_num
  have hdt2 : ¬ pid_dt ℚ now p.last_time ≤ 0 := not_le.mpr hdt
  simp only [pid_compute, if_neg hinit2, if_neg hdt2, hki, zero_mul,
    add_zero, ne_eq, eq_self_iff_true, not_true, false_and, if_false]
  rw [spec_clamp]
  split_ifs with h1 h2
  · rw [min_eq_right h1.le, max_eq_right hlim]
  · rw [min_eq_left (not_lt.mp h1), max_eq_left h2.le]
  · rw [min_eq_left (not_lt.mp h1), max_eq_right (not_lt.mp h2)]

/-- C7 (witness): the clamp identity instantiated at a concrete
pure-PD controller; the resulting output is `2 * (0 - 10) - (1/5) * 10`
= -22, inside the limits. -/
theorem C7_ki_zero_pd_clamp_witness :
    (pid_compute
      (⟨2, 0, 1/5, 0, 0, 0, -50, 50, 0, true⟩ : pid_controller_t ℚ)
      10 1000000).1 = -22 := by
  have h := C7_ki_zero_pd_clamp
    (⟨2, 0, 1/5, 0, 0, 0, -50, 50, 0, true⟩ : pid_controller_t ℚ)
    10 1000000 rfl rfl (by norm_num)
    (by rw [pid_dt]; norm_num [u32_sub, U32_MOD])
  rw [h, pid_dt]
  norm_num [spec_clamp, u32_sub, U32_MOD]

/-- C8 (counterexample): two distinct coordinates at the pole — same
latitude 90, longitudes 0 and 10 — have haversine distance zero while a
valid fix and target are set, refuting "zero iff bit-for-bit equal". -/
theorem C8_zero_iff_equal_cex :
    gps_distance_to_target ⟨90, 0, 0, 0, true⟩ ⟨90, 10, true⟩ = 0 ∧
    ¬((90 : ℝ) = 90 ∧ (0 : ℝ) = 10) := by
  constructor
  · simp only [gps_distance_to_target]
    norm_num
    unfold haversine_distance haversine_a
    have h : (90 : ℝ) * Real.pi / 180 = Real.pi / 2 := by ring
    norm_num [h, Real.cos_pi_div_two, atan2, Real.arctan_zero]
  · rintro ⟨-, h⟩
    norm_num at h

/-- C8 (amended): with a valid fix and a set target the distance
computation is symmetric under exchanging position and target, and a
position identical to its target has distance zero — but zero distance
does not imply coordinate equality. -/
theorem C8_distance_symm_self_amended :
    (∀ lat1 lng1 lat2 lng2 : ℝ, ∀ sats q : ℤ,
      gps_distance_to_target ⟨lat1, lng1, sats, q, true⟩
          ⟨lat2, lng2, true⟩ =
        gps_distance_to_target ⟨lat2, lng2, sats, q, true⟩
          ⟨lat1, lng1, true⟩) ∧
    (∀ lat lng : ℝ, ∀ sats q : ℤ,
      gps_distance_to_target ⟨lat, lng, sats, q, true⟩
        ⟨lat, lng, true⟩ = 0) := by
  constructor
  · intro lat1 lng1 lat2 lng2 sats q
    simp only [gps_distance_to_target]
    norm_num
    exact haversine_distance_symm lat1 lng1 lat2 lng2
  · intro lat lng sats q
    simp only [gps_distance_to_target]
    norm_num
    exact haversine_distance_self lat lng

/-- C9: without a valid fix or without a set target,
`gps_distance_to_target` returns 0.0 and `gps_target_reached` is
consequently true (0 < 2) although no target was approached. -/
theorem C9_no_fix_distance_zero_reached (gps : gps_data_t)
    (target : target_data_t)
    (h : gps.fix_valid = false ∨ target.target_set = false) :
    gps_distance_to_target gps target = 0 ∧
      gps_target_reached gps target := by
  have hd : gps_distance_to_target gps target = 0 := by
    rw [gps_distance_to_target, if_pos h]
  refine ⟨hd, ?_⟩
  rw [gps_target_reached, hd]
  norm_num

/-- C9 (witness): the degenerate-arrival theorem at a concrete fixless
state. -/
theorem C9_no_fix_distance_zero_reached_witness :
    gps_distance_to_target ⟨0, 0, 0, 0, false⟩ ⟨0, 0, false⟩ = 0 ∧
      gps_target_reached ⟨0, 0, 0, 0, false⟩ ⟨0, 0, false⟩ :=
  C9_no_fix_distance_zero_reached ⟨0, 0, 0, 0, false⟩ ⟨0, 0, false⟩
    (Or.inl rfl)

/-- C10: for 32-bit timestamps, the `dt` of `pid_compute` is never
negative, vanishes exactly when the two timestamps coincide — so the
`dt <= 0` guard fires only for calls within the same microsecond — and
on a counter wraparound (`now < last`) the update is not skipped: the
compute path runs and stamps `last_time`. -/
theorem C10_dt_nonneg_wraparound (now last : ℕ) (h1 : now < U32_MOD)
    (h2 : last < U32_MOD) :
    0 ≤ pid_dt ℚ now last ∧
    (pid_dt ℚ now last = 0 ↔ now = last) ∧
    (pid_dt ℚ now last ≤ 0 ↔ now = last) ∧
    (∀ (p : pid_controller_t ℚ) (input : ℚ),
      p.initialized = true → p.last_time = last → now ≠ last →
      (pid_compute p input now).2.last_time = now) := by
  have hM : U32_MOD = 4294967296 := by norm_num [U32_MOD]
  have hz : u32_sub now last = 0 ↔ now = last := by
    rw [u32_sub, hM]
    rw [hM] at h1 h2
    omega
  have hnn : 0 ≤ pid_dt ℚ now last := by
    rw [pid_dt]
    positivity
  have hiff : pid_dt ℚ now last = 0 ↔ now = last := by
    rw [pid_dt, div_eq_zero_iff]
    constructor
    · intro h
      rcases h with h | h
      · exact hz.mp (by exact_mod_cast h)
      · exact absurd h (by norm_num)
    · intro h
      exact Or.inl (by exact_mod_cast hz.mpr h)
  have hle : pid_dt ℚ now last ≤ 0 ↔ now = last :=
    ⟨fun h => hiff.mp (le_antisymm h hnn), fun h => le_of_eq (hiff.mpr h)⟩
  refine ⟨hnn, hiff, hle, ?_⟩
  intro p input hpi hpl hne
  rcases pid_compute_cases p input now with ⟨hg, _⟩ | ⟨hlt, _⟩
  · rcases hg with hbad | hbad
    · rw [hpi] at hbad
      exact absurd hbad (by norm_num)
    · rw [hpl] at hbad
      exact absurd (hle.mp hbad) hne
  · rw [hlt]
    exact Nat.mod_eq_of_lt h1

/-- C10 (witness): the `dt` properties at the wrapped pair
`now = 5`, `last = 2^32 - 1`, where the uint32 difference is the large
positive 6 µs, not a skipped update. -/
theorem C10_dt_nonneg_wraparound_witness :
    0 ≤ pid_dt ℚ 5 4294967295 ∧
    (pid_dt ℚ 5 4294967295 = 0 ↔ (5 : ℕ) = 4294967295) ∧
    (pid_dt ℚ 5 4294967295 ≤ 0 ↔ (5 : ℕ) = 4294967295) ∧
    (∀ (p : pid_controller_t ℚ) (input : ℚ),
      p.initialized = true → p.last_time = 4294967295 →
      (5 : ℕ) ≠ 4294967295 →
      (pid_compute p input 5).2.last_time = 5) :=
  C10_dt_nonneg_wraparound 5 4294967295 (by norm_num [U32_MOD])
    (by norm_num [U32_MOD])

end WallyS
